import Mathlib

/-!
Shallow embedding of the bittensor "Exodus" core server
(`bittensor/_neuron/text/core_server/run.py`) and the text seq2seq call
envelope (`bittensor/_synapse/text_seq2seq/call.py`), with theorems checking
the repository specification against the code.

Conventions of the embedding:
* Python dictionaries become association lists; in-place mutation becomes
  explicit state passing.
* A Python function that can raise returns `Except`; where mutations made
  before a raise matter, the error value carries the state at the raise.
* Tensors are modelled by their shape and rational data; floating point
  constants such as `0.00001` become the exact rationals of the source text.
* External collaborators (serializers, `torch.autograd.backward`) are
  parameters of the embedded functions, so theorems quantify over them.
-/

namespace Exodus

/-- The `bittensor.proto.ReturnCode` enum (constructors used by the two
files). -/
inductive ReturnCode
  | Success
  | Timeout
  | NotImplemented
  | UnknownException
deriving DecidableEq, Repr

/-- The `bittensor.proto.RequestType` enum (the axon request kinds named
in the docstring of `blacklist`). -/
inductive RequestType
  | FORWARD
  | BACKWARD
deriving DecidableEq, Repr

/-- A torch tensor, reduced to the observables the embedded code reads:
its shape and its (rational-valued) flat data. -/
structure Tensor where
  shape : List Nat
  data : List Rat
deriving Repr

/-- Embedding of `t.size(0)`: the first dimension of the shape. -/
def Tensor.size0 (t : Tensor) : Nat := t.shape.headD 0

/-- Embedding of `t.sum()` over the flat data. -/
def Tensor.sum (t : Tensor) : Rat := t.data.sum

/-- The `bittensor.proto.Synapse.SynapseType` values used by `run.py`. -/
inductive SynapseType
  | TEXT_LAST_HIDDEN_STATE
  | TEXT_CAUSAL_LM
  | TEXT_SEQ_2_SEQ
deriving DecidableEq, Repr

/-- One entry of the `synapses` argument of `backward_callback`
(`bittensor.proto.SynapseArgs`): only its `synapse_type` is read. -/
structure Synapse where
  synapse_type : SynapseType
deriving DecidableEq, Repr

/-- A synapse compute callback, as stored in `axon.synapse_callbacks`:
called as `callback(inputs_x[index], synapse)`, it either raises (the
`Except.error` carries `str(e)`) or returns the pair
`(model_output, response_tensor)`.  `model_output` is never read by
`backward_callback`, so it is modelled as `Option Unit`. -/
def SynapseCallback : Type := Tensor → Synapse → Except String (Option Unit × Tensor)

/-- The environment closed over by `backward_callback` in `run.py`:
`config.neuron.remote_train`, the axon's callback dictionary (a Python dict
whose values may be `None`: the outer `Option` is key membership, the inner
one is non-`None`-ness), and the external effect of
`torch.autograd.backward` on the shared autograd graph, which either
succeeds or raises with a message. -/
structure DispatchEnv where
  remote_train : Bool
  synapse_callbacks : SynapseType → Option (Option SynapseCallback)
  autograd_backward : Tensor → List Rat → Except String Unit

/-- The callback-availability test `synapse.synapse_type in
axon.synapse_callbacks and axon.synapse_callbacks[synapse.synapse_type]
!= None` (run.py line 221). -/
def DispatchEnv.hasCallback (env : DispatchEnv) (s : Synapse) : Bool :=
  match env.synapse_callbacks s.synapse_type with
  | some (some _) => true
  | _ => false

/-- Message of the `IndexError` raised by `inputs_x[index]` or
`grads_dy[index]` when the batch lists are shorter than `synapses`;
caught by the per-item `except` like any other exception. -/
def indexErrorMessage : String := "index out of range"

/-- The body of one iteration of the `for index, synapse in
enumerate(synapses)` loop of `backward_callback` (run.py lines 219-241),
wrapped in its per-item `try/except`.  Returns the appended
`(response_tensor, response_code, response_message)` triple together with
the increment applied to `model.backward_gradients_count` by the statement
`model.backward_gradients_count += inputs_x[index].size(0)`
(`inputs_x[index].size(0)` on the success path, `0` otherwise).  On the
success path the result of the callback is unpacked as `model_output,
response_tensor = ...`, the gradient is normalized as
`grads_dy[index]/(grads_dy[index].sum() + 0.00001)` and handed to
`torch.autograd.backward` with `retain_graph=True`. -/
def dispatchItem (env : DispatchEnv) (inputs_x grads_dy : List Tensor)
    (index : Nat) (synapse : Synapse) :
    (Option Tensor × ReturnCode × String) × Nat :=
  match env.synapse_callbacks synapse.synapse_type with
  | some (some cb) =>
    match inputs_x[index]? with
    | none => ((none, ReturnCode.UnknownException, indexErrorMessage), 0)
    | some inp =>
      match cb inp synapse with
      | Except.error msg => ((none, ReturnCode.UnknownException, msg), 0)
      | Except.ok mr =>
        let response_tensor := mr.2
        match grads_dy[index]? with
        | none => ((none, ReturnCode.UnknownException, indexErrorMessage), 0)
        | some g =>
          let grads_dy_norm := g.data.map (fun x => x / (g.sum + 1 / 100000))
          match env.autograd_backward response_tensor grads_dy_norm with
          | Except.error msg => ((none, ReturnCode.UnknownException, msg), 0)
          | Except.ok _ =>
            ((none, ReturnCode.Success, "Success"), inp.size0)
  | _ => ((none, ReturnCode.NotImplemented, "Not Implemented"), 0)

/-- The `for` loop of `backward_callback`, threading the running index and
the shared gradient counter and collecting the three response lists. -/
def dispatchLoop (env : DispatchEnv) (inputs_x grads_dy : List Tensor) :
    Nat → List Synapse → Nat →
    (List (Option Tensor) × List ReturnCode × List String) × Nat
  | _, [], count => (([], [], []), count)
  | index, synapse :: rest, count =>
    let item := dispatchItem env inputs_x grads_dy index synapse
    let tail :=
      dispatchLoop env inputs_x grads_dy (index + 1) rest (count + item.2)
    ((item.1.1 :: tail.1.1, item.1.2.1 :: tail.1.2.1, item.1.2.2 :: tail.1.2.2),
      tail.2)

/-- Embedding of `backward_callback(inputs_x, grads_dy, synapses)` (run.py lines
189-243).  If `config.neuron.remote_train` is off the three empty response
lists are returned at once; otherwise each synapse item is processed
independently under the per-item `try/except`, so the function always
returns its triple (it never raises to the caller).  The second component
is the value of the shared counter `model.backward_gradients_count` after
the batch, whose starting value is the last argument. -/
def backward_callback (env : DispatchEnv) (inputs_x grads_dy : List Tensor)
    (synapses : List Synapse) (count : Nat) :
    (List (Option Tensor) × List ReturnCode × List String) × Nat :=
  if env.remote_train then
    dispatchLoop env inputs_x grads_dy 0 synapses count
  else
    (([], [], []), count)

/-! Admission controller (`blacklist`, run.py lines 107-171). -/

/-- Outcome of one admission sub-check: the source signals rejection by
raising and acceptance by returning `False` (= not blacklisted). -/
inductive CheckOutcome
  | accepted
  | rejected
deriving DecidableEq, Repr

/-- Overwrite (or insert) the binding of `k` in an association list:
the effect of `timecheck[pubkey] = current_time` on the module dict. -/
def updateAssoc (m : List (String × Int)) (k : String) (v : Int) :
    List (String × Int) :=
  match m with
  | [] => [(k, v)]
  | (k', v') :: rest =>
    if k' = k then (k, v) :: rest else (k', v') :: updateAssoc rest k v

/-- Embedding of `time_check()` (run.py lines 145-157), the rate-limit sub-check, with
its closure state made explicit: `blacklistTime` is
`config.neuron.blacklist.time` in seconds, `timecheck` the module-level
dict mapping pubkey to the last seen `datetime`, and `currentTime` the
value of `datetime.now()` at this invocation (times in seconds).  Returns
the outcome (`rejected` embeds `raise Exception('blacklist')`) together
with the updated dict. -/
def time_check (blacklistTime : Int) (timecheck : List (String × Int))
    (pubkey : String) (currentTime : Int) :
    CheckOutcome × List (String × Int) :=
  match timecheck.lookup pubkey with
  | some prev_time =>
    if currentTime - prev_time ≥ blacklistTime then
      (CheckOutcome.accepted, updateAssoc timecheck pubkey currentTime)
    else
      (CheckOutcome.rejected, updateAssoc timecheck pubkey currentTime)
  | none => (CheckOutcome.accepted, updateAssoc timecheck pubkey currentTime)

/-- The `try` body of `blacklist` (run.py lines 161-168): every sub-check
call is commented out, so the body just returns `False` and cannot raise. -/
def blacklistTryBody : Except String Bool := Except.ok false

/-- Embedding of `blacklist(pubkey, request_type)` (run.py lines 107-171): runs the
`try` body; any exception caught by the `except` clause would yield `True`
(blacklisted). -/
def blacklist (pubkey : String) (request_type : RequestType) : Bool :=
  match blacklistTryBody with
  | Except.ok b => b
  | Except.error _ => true

/-! The dispatcher's `with` statement and the scheduler's locking
(run.py lines 73, 218, 311-329) -/

/-- A Python runtime object as far as `with`-statement evaluation is
concerned: its display name and its truthiness.  `threading.Lock` objects
and torch context managers define no falsy `__bool__`, so all three
operands at line 218 are truthy. -/
structure PyObj where
  name : String
  truthy : Bool
deriving DecidableEq, Repr

/-- Python `a and b`: evaluates to `b` when `a` is truthy, else to `a`. -/
def pyAnd (a b : PyObj) : PyObj := if a.truthy then b else a

/-- The `mutex = Lock()` object created at run.py line 73. -/
def mutexObj : PyObj := { name := "mutex", truthy := true }

/-- The `torch.enable_grad()` context manager at run.py line 218. -/
def enableGradObj : PyObj := { name := "torch.enable_grad()", truthy := true }

/-- The `torch.autograd.set_detect_anomaly(True)` context manager at
run.py line 218. -/
def detectAnomalyObj : PyObj :=
  { name := "torch.autograd.set_detect_anomaly(True)", truthy := true }

/-- The context-manager expression of the dispatcher's critical section,
`mutex and torch.enable_grad() and torch.autograd.set_detect_anomaly(True)`
(run.py line 218), evaluated with Python `and` semantics. -/
def dispatcherWithExpr : PyObj :=
  pyAnd (pyAnd mutexObj enableGradObj) detectAnomalyObj

/-- The context managers entered by a Python `with e:` statement: exactly
the single object `e` evaluates to (a `with a, b:` statement would enter
both, but line 218 is a single `and` expression). -/
def enteredContexts (e : PyObj) : List PyObj := [e]

/-- The lock-acquisition statements appearing in the scheduler's parameter
update section, run.py lines 311-329: the section contains none (no
`with mutex` and no `mutex.acquire()`). -/
def schedulerUpdateLocks : List PyObj := []

/-! The scheduler's MAYBE_UPDATE step (run.py lines 311-329). -/

/-- The configuration flags read by the update step. -/
structure UpdateConfig where
  local_train : Bool
  remote_train : Bool
deriving DecidableEq, Repr

/-- The mutable state touched by run.py lines 311-329: the optimizer's
learning rate `optimizer.param_groups[0]['lr']`, the shared counter
`model.backward_gradients_count`, the attribute `model.backward_gradients`
created by the assignment at line 323 (`none` while unset), whether
`optimizer.step()` has run this epoch, the epoch's `local_data` dict entry
`local/loss` (`none` while absent), `model.best_loss`, and whether
`model.save` was called this epoch. -/
structure UpdateState where
  lr : Rat
  backward_gradients_count : Nat
  backward_gradients : Option Nat
  stepped : Bool
  local_loss : Option Rat
  best_loss : Rat
  saved : Bool
deriving DecidableEq, Repr

/-- The Python exceptions the update step can raise. -/
inductive PyError
  | nameError (name : String)
  | zeroDivisionError
  | attributeError (name : String)
deriving DecidableEq, Repr

/-- Run.py lines 311-329, the parameter-update block of the control loop.
`iteration` is the epoch's local iteration counter and `losses` the value
of the Python variable `losses` (`none` when the name is unbound, i.e. no
local training iteration ever ran in this `serve` call; it survives across
epochs once bound).  An exception aborts the loop body, and the mutations
made before the raise persist, so errors carry the state at the raise:
`local_data = {'local/loss': losses.detach().item() / iteration}` at line
325 runs unconditionally inside the branch and raises `NameError` when
`losses` is unbound, `ZeroDivisionError` when `iteration == 0`. -/
def maybeUpdate (cfg : UpdateConfig) (iteration : Nat) (losses : Option Rat)
    (st : UpdateState) : Except (PyError × UpdateState) UpdateState :=
  if (cfg.local_train && decide (0 < iteration)) ||
      (cfg.remote_train && decide (0 < st.backward_gradients_count)) then
    let st1 :=
      if 0 < st.backward_gradients_count then
        { st with lr := (1 / 10 : Rat) / (st.backward_gradients_count : Rat) }
      else
        { st with lr := (1 / 10 : Rat) }
    let st2 := { st1 with stepped := true, backward_gradients := some 0 }
    match losses with
    | none => Except.error (PyError.nameError "losses", st2)
    | some l =>
      if iteration = 0 then
        Except.error (PyError.zeroDivisionError, st2)
      else
        let avg := l / (iteration : Rat)
        let st3 := { st2 with local_loss := some avg }
        if avg < st3.best_loss then
          Except.ok { st3 with best_loss := avg, saved := true }
        else
          Except.ok st3
  else
    Except.ok st

/-! The TRAIN_OR_WAIT loop (run.py lines 289-308). -/

/-- The local-training loop of run.py lines 291-300, with the chain's
block clock made explicit: `blocks` is the stream of values returned by
successive `subtensor.get_current_block()` calls (the loop reads the clock
once in the `if` guard and, after a training step, once more to refresh
`current_block`).  Returns the number of training batches consumed
(`iteration`).  The real loop spins until the clock passes `end_block`;
the embedding stops when the finite observation stream runs out. -/
def localTrainLoop (end_block : Nat) :
    Nat → List Nat → Nat → Nat
  | current_block, blocks, iteration =>
    if end_block ≥ current_block then
      match blocks with
      | [] => iteration
      | b :: rest =>
        if current_block ≠ b then
          match rest with
          | [] => iteration + 1
          | b2 :: rest2 => localTrainLoop end_block b2 rest2 (iteration + 1)
        else
          localTrainLoop end_block current_block rest iteration
    else
      iteration

/-! Text seq2seq call envelope (`call.py`). -/

/-- The `bittensor.proto.Serializer` selectors (the source only names
`MSGPACK`; `PICKLE` stands for the other enum values). -/
inductive SerializerType
  | MSGPACK
  | PICKLE
deriving DecidableEq, Repr

/-- A serialized tensor payload (opaque bytes). -/
abbrev SerializedTensor := List Nat

/-- State of a `TextSeq2SeqForwardCall` after `__init__` (call.py lines 24-98): one
field per attribute assigned there. -/
structure TextSeq2SeqForwardCall where
  timeout : Rat
  text_prompt : Tensor
  generations : Option Tensor
  topk : Nat
  num_to_generate : Nat
  num_beams : Nat
  no_repeat_ngram_size : Nat
  early_stopping : Bool
  num_return_sequences : Nat
  do_sample : Bool
  top_p : Rat
  temperature : Rat
  repetition_penalty : Rat
  length_penalty : Rat
  max_time : Rat
  num_beam_groups : Nat
  text_prompt_serializer_type : SerializerType
  generations_serializer_type : SerializerType

/-- The attribute names assigned on `self` by `__init__` (call.py lines
81-98, including `timeout` set by the base class).  Python attribute
lookup on a call object succeeds exactly for these names. -/
def initAttrNames : List String :=
  ["timeout", "text_prompt", "generations", "topk", "num_to_generate",
   "num_beams", "no_repeat_ngram_size", "early_stopping",
   "num_return_sequences", "do_sample", "top_p", "temperature",
   "repetition_penalty", "length_penalty", "max_time", "num_beam_groups",
   "text_prompt_serializer_type", "generations_serializer_type"]

/-- The wire request `bittensor.ForwardTextSeq2SeqRequest` with the fields
filled at call.py lines 144-161. -/
structure ForwardTextSeq2SeqRequest where
  serialized_text_prompt : SerializedTensor
  text_prompt_serializer_type : SerializerType
  generations_serializer_type : SerializerType
  topk : Nat
  num_to_generate : Nat
  num_beams : Nat
  no_repeat_ngram_size : Nat
  early_stopping : Bool
  num_return_sequences : Nat
  do_sample : Bool
  top_p : Rat
  temperature : Rat
  repetition_penalty : Rat
  length_penalty : Rat
  max_time : Rat
  num_beam_groups : Nat
  timeout : Rat

/-- The wire response `bittensor.ForwardTextSeq2SeqResponse`: serialized
payload, return code and human-readable message. -/
structure ForwardTextSeq2SeqResponse where
  serialized_generations : SerializedTensor
  return_code : ReturnCode
  message : String

/-- Embedding of `to_forward_request_proto` (call.py lines 138-162).  Line 140 reads
`self._text_prompt_serializer_type`; attribute lookup succeeds only for
the names in `initAttrNames`, otherwise Python raises `AttributeError`.
The `serialize` parameter is the external
`bittensor.serializer(...).serialize` collaborator.  On the (dead) success
path the request is filled exactly as lines 144-161 write it. -/
def to_forward_request_proto
    (serialize : SerializerType → Tensor → SerializedTensor)
    (c : TextSeq2SeqForwardCall) :
    Except PyError ForwardTextSeq2SeqRequest :=
  if "_text_prompt_serializer_type" ∈ initAttrNames then
    Except.ok
      { serialized_text_prompt :=
          serialize c.text_prompt_serializer_type c.text_prompt,
        text_prompt_serializer_type := c.text_prompt_serializer_type,
        generations_serializer_type := c.generations_serializer_type,
        topk := c.topk,
        num_to_generate := c.num_to_generate,
        num_beams := c.num_beams,
        no_repeat_ngram_size := c.no_repeat_ngram_size,
        early_stopping := c.early_stopping,
        num_return_sequences := c.num_return_sequences,
        do_sample := c.do_sample,
        top_p := c.top_p,
        temperature := c.temperature,
        repetition_penalty := c.repetition_penalty,
        length_penalty := c.length_penalty,
        max_time := c.max_time,
        num_beam_groups := c.num_beam_groups,
        timeout := c.timeout }
  else
    Except.error (PyError.attributeError "_text_prompt_serializer_type")

/-- Embedding of `from_forward_response_proto` (call.py lines 120-127): a non-success
return code raises `Exception('Remote Server Failure: ' + message)` before
the deserializer is invoked; on success the payload is deserialized into
the `generations` slot.  The `deserialize` parameter is the external
`bittensor.serializer(...).deserialize` collaborator. -/
def from_forward_response_proto
    (deserialize : SerializerType → SerializedTensor → Tensor)
    (c : TextSeq2SeqForwardCall) (response_proto : ForwardTextSeq2SeqResponse) :
    Except String TextSeq2SeqForwardCall :=
  if response_proto.return_code ≠ ReturnCode.Success then
    Except.error ("Remote Server Failure: " ++ response_proto.message)
  else
    Except.ok
      { c with
        generations :=
          some (deserialize c.generations_serializer_type
            response_proto.serialized_generations) }

/-! Concrete fixtures used by witness and counterexample theorems. -/

/-- A fixture synapse callback that succeeds. -/
def okCallback : SynapseCallback :=
  fun _ _ => Except.ok (none, { shape := [1], data := [0] })

/-- A fixture synapse callback that raises with message "boom". -/
def throwCallback : SynapseCallback := fun _ _ => Except.error "boom"

/-- A fixture dispatch environment: remote training enabled, a working
callback registered for TEXT_LAST_HIDDEN_STATE, a raising callback for
TEXT_CAUSAL_LM, no callback for TEXT_SEQ_2_SEQ, and a succeeding
`torch.autograd.backward`. -/
def sampleEnv : DispatchEnv where
  remote_train := true
  synapse_callbacks := fun t =>
    match t with
    | SynapseType.TEXT_LAST_HIDDEN_STATE => some (some okCallback)
    | SynapseType.TEXT_CAUSAL_LM => some (some throwCallback)
    | SynapseType.TEXT_SEQ_2_SEQ => none
  autograd_backward := fun _ _ => Except.ok ()

/-- Fixture batch inputs: three items whose first dimensions (sample
counts) are 2, 4 and 1. -/
def sampleInputs : List Tensor :=
  [{ shape := [2, 3], data := [] }, { shape := [4, 3], data := [] },
   { shape := [1, 3], data := [] }]

/-- Fixture gradient batch. -/
def sampleGrads : List Tensor :=
  [{ shape := [2], data := [1, 1] }, { shape := [2], data := [1, 1] },
   { shape := [2], data := [1, 1] }]

/-- Fixture synapse batch: one item of each synapse type. -/
def sampleSynapses : List Synapse :=
  [{ synapse_type := SynapseType.TEXT_LAST_HIDDEN_STATE },
   { synapse_type := SynapseType.TEXT_CAUSAL_LM },
   { synapse_type := SynapseType.TEXT_SEQ_2_SEQ }]

/-- Embedding of the default arguments of `__init__` (call.py lines
24-43): the call object built from a text prompt with every optional
parameter left at its default (`bittensor.__blocktime__` is 12). -/
def defaultForwardCall (text_prompt : Tensor) : TextSeq2SeqForwardCall where
  timeout := 12
  text_prompt := text_prompt
  generations := none
  topk := 50
  num_to_generate := 256
  num_beams := 5
  no_repeat_ngram_size := 2
  early_stopping := false
  num_return_sequences := 1
  do_sample := false
  top_p := 95 / 100
  temperature := 1
  repetition_penalty := 1
  length_penalty := 1
  max_time := 150
  num_beam_groups := 1
  text_prompt_serializer_type := SerializerType.MSGPACK
  generations_serializer_type := SerializerType.MSGPACK

/-- A fixture deserializer standing in for the external
`bittensor.serializer(...).deserialize` collaborator. -/
def sampleDeserialize : SerializerType → SerializedTensor → Tensor :=
  fun _ s => { shape := [s.length], data := [] }

/-- A fixture forward-call object built with the default `__init__`
arguments from a small text prompt. -/
def sampleCall : TextSeq2SeqForwardCall :=
  defaultForwardCall { shape := [1, 2], data := [3, 4] }

/-! Helper lemmas about the dispatcher loop. -/

/-- Every branch of the per-item dispatch appends `None` as the response
tensor. -/
theorem dispatchItem_tensor_none (env : DispatchEnv)
    (inputs_x grads_dy : List Tensor) (index : Nat) (synapse : Synapse) :
    (dispatchItem env inputs_x grads_dy index synapse).1.1 = none := by
  unfold dispatchItem
  repeat' (first | split | dsimp only)

/-- An item yields `NotImplemented` exactly when no callback is registered
for its synapse type. -/
theorem dispatchItem_notImplemented_iff (env : DispatchEnv)
    (inputs_x grads_dy : List Tensor) (index : Nat) (synapse : Synapse) :
    ((dispatchItem env inputs_x grads_dy index synapse).1.2.1 =
        ReturnCode.NotImplemented) ↔ env.hasCallback synapse = false := by
  unfold dispatchItem DispatchEnv.hasCallback
  repeat' (first | split | dsimp only)
  all_goals simp_all

/-- The three response lists of the dispatch loop all have one entry per
synapse item. -/
theorem dispatchLoop_lengths (env : DispatchEnv)
    (inputs_x grads_dy : List Tensor) :
    ∀ (synapses : List Synapse) (index count : Nat),
      (dispatchLoop env inputs_x grads_dy index synapses count).1.1.length =
          synapses.length ∧
      (dispatchLoop env inputs_x grads_dy index synapses count).1.2.1.length =
          synapses.length ∧
      (dispatchLoop env inputs_x grads_dy index synapses count).1.2.2.length =
          synapses.length := by
  intro synapses
  induction synapses with
  | nil => intro index count; simp [dispatchLoop]
  | cons s rest ih =>
    intro index count
    have h := ih (index + 1)
      (count + (dispatchItem env inputs_x grads_dy index s).2)
    simp [dispatchLoop, h.1, h.2.1, h.2.2]

/-- Every response tensor produced by the dispatch loop is `None`. -/
theorem dispatchLoop_tensors_none (env : DispatchEnv)
    (inputs_x grads_dy : List Tensor) :
    ∀ (synapses : List Synapse) (index count : Nat),
      ∀ t ∈ (dispatchLoop env inputs_x grads_dy index synapses count).1.1,
        t = none := by
  intro synapses
  induction synapses with
  | nil => intro index count t ht; simp [dispatchLoop] at ht
  | cons s rest ih =>
    intro index count t ht
    simp only [dispatchLoop, List.mem_cons] at ht
    rcases ht with h | h
    · rw [h, dispatchItem_tensor_none]
    · exact ih (index + 1)
        (count + (dispatchItem env inputs_x grads_dy index s).2) t h

/-- The entry at position `i` of each response list is the per-item result
of the `i`-th synapse alone (offset by the starting index): sibling items
and the running counter do not influence it. -/
theorem dispatchLoop_get (env : DispatchEnv) (inputs_x grads_dy : List Tensor) :
    ∀ (synapses : List Synapse) (index count i : Nat) (s : Synapse),
      synapses[i]? = some s →
      (dispatchLoop env inputs_x grads_dy index synapses count).1.1[i]? =
          some (dispatchItem env inputs_x grads_dy (index + i) s).1.1 ∧
      (dispatchLoop env inputs_x grads_dy index synapses count).1.2.1[i]? =
          some (dispatchItem env inputs_x grads_dy (index + i) s).1.2.1 ∧
      (dispatchLoop env inputs_x grads_dy index synapses count).1.2.2[i]? =
          some (dispatchItem env inputs_x grads_dy (index + i) s).1.2.2 := by
  intro synapses
  induction synapses with
  | nil => intro index count i s h; simp at h
  | cons hd tl ih =>
    intro index count i s h
    cases i with
    | zero =>
      simp only [List.getElem?_cons_zero, Option.some.injEq] at h
      subst h
      simp [dispatchLoop]
    | succ n =>
      simp only [List.getElem?_cons_succ] at h
      have h2 := ih (index + 1)
        (count + (dispatchItem env inputs_x grads_dy index hd).2) n s h
      have harith : index + 1 + n = index + (n + 1) := by omega
      rw [harith] at h2
      simpa [dispatchLoop] using h2

/-- The dispatch loop emits exactly one `NotImplemented` entry per item
lacking a registered callback. -/
theorem dispatchLoop_notImplemented_count (env : DispatchEnv)
    (inputs_x grads_dy : List Tensor) :
    ∀ (synapses : List Synapse) (index count : Nat),
      ((dispatchLoop env inputs_x grads_dy index synapses count).1.2.1).count
          ReturnCode.NotImplemented =
        (synapses.filter (fun s => !env.hasCallback s)).length := by
  intro synapses
  induction synapses with
  | nil => intro index count; simp [dispatchLoop]
  | cons hd tl ih =>
    intro index count
    have h := ih (index + 1)
      (count + (dispatchItem env inputs_x grads_dy index hd).2)
    by_cases hb : env.hasCallback hd = false
    · have hc := (dispatchItem_notImplemented_iff env inputs_x grads_dy
        index hd).mpr hb
      simp [dispatchLoop, List.count_cons, hc, h, List.filter_cons, hb]
    · have hc : (dispatchItem env inputs_x grads_dy index hd).1.2.1 ≠
          ReturnCode.NotImplemented := by
        intro hcon
        exact hb ((dispatchItem_notImplemented_iff env inputs_x grads_dy
          index hd).mp hcon)
      have hb' : env.hasCallback hd = true := by
        cases hcase : env.hasCallback hd
        · exact absurd hcase hb
        · rfl
      simp [dispatchLoop, List.count_cons, hc, h, List.filter_cons, hb']

/-! Claim C10. -/

/-- C10: every call of the backward dispatcher returns three sequences of
equal length, and every entry of the response-tensor sequence is `None`,
whether remote training is enabled or not and whatever the per-item
outcomes are. -/
theorem backward_callback_shape_invariant (env : DispatchEnv)
    (inputs_x grads_dy : List Tensor) (synapses : List Synapse) (count : Nat) :
    ((backward_callback env inputs_x grads_dy synapses count).1.1.length =
        (backward_callback env inputs_x grads_dy synapses count).1.2.1.length) ∧
    ((backward_callback env inputs_x grads_dy synapses count).1.2.1.length =
        (backward_callback env inputs_x grads_dy synapses count).1.2.2.length) ∧
    (∀ t ∈ (backward_callback env inputs_x grads_dy synapses count).1.1,
        t = none) := by
  unfold backward_callback
  by_cases hrt : env.remote_train
  · simp only [hrt, if_true]
    have hl := dispatchLoop_lengths env inputs_x grads_dy synapses 0 count
    exact ⟨by rw [hl.1, hl.2.1], by rw [hl.2.1, hl.2.2],
      dispatchLoop_tensors_none env inputs_x grads_dy synapses 0 count⟩
  · simp [hrt]

/-! Claim C6. -/

/-- C6: with remote training enabled, the dispatcher returns one entry per
synapse item; exactly the items lacking a registered callback yield
`NotImplemented`; the entry at each position is a function of that item
alone (so one item's outcome never affects its siblings), and an item
whose callback raises yields `UnknownException` carrying the raised
message; the function returns its result triple instead of raising. -/
theorem backward_callback_partial_failure (env : DispatchEnv)
    (inputs_x grads_dy : List Tensor) (synapses : List Synapse) (count : Nat)
    (hrt : env.remote_train = true) :
    ((backward_callback env inputs_x grads_dy synapses count).1.2.1.length =
        synapses.length) ∧
    ((backward_callback env inputs_x grads_dy synapses count).1.2.1.count
        ReturnCode.NotImplemented =
      (synapses.filter (fun s => !env.hasCallback s)).length) ∧
    (∀ (i : Nat) (s : Synapse), synapses[i]? = some s →
      (backward_callback env inputs_x grads_dy synapses count).1.2.1[i]? =
          some (dispatchItem env inputs_x grads_dy i s).1.2.1 ∧
      (backward_callback env inputs_x grads_dy synapses count).1.2.2[i]? =
          some (dispatchItem env inputs_x grads_dy i s).1.2.2) ∧
    (∀ (i : Nat) (s : Synapse) (cb : SynapseCallback) (inp : Tensor)
        (msg : String), synapses[i]? = some s →
      env.synapse_callbacks s.synapse_type = some (some cb) →
      inputs_x[i]? = some inp → cb inp s = Except.error msg →
      (backward_callback env inputs_x grads_dy synapses count).1.2.1[i]? =
          some ReturnCode.UnknownException ∧
      (backward_callback env inputs_x grads_dy synapses count).1.2.2[i]? =
          some msg) := by
  unfold backward_callback
  rw [hrt, if_pos rfl]
  refine ⟨(dispatchLoop_lengths env inputs_x grads_dy synapses 0 count).2.1,
    dispatchLoop_notImplemented_count env inputs_x grads_dy synapses 0 count,
    ?_, ?_⟩
  · intro i s h
    have hg := dispatchLoop_get env inputs_x grads_dy synapses 0 count i s h
    rw [Nat.zero_add] at hg
    exact ⟨hg.2.1, hg.2.2⟩
  · intro i s cb inp msg h hcb hinp herr
    have hg := dispatchLoop_get env inputs_x grads_dy synapses 0 count i s h
    rw [Nat.zero_add] at hg
    have hitem : (dispatchItem env inputs_x grads_dy i s).1 =
        (none, ReturnCode.UnknownException, msg) := by
      simp [dispatchItem, hcb, hinp, herr]
    exact ⟨by rw [hg.2.1, hitem], by rw [hg.2.2, hitem]⟩

/-- Witness for the partial-failure theorem on the fixture batch: three
items of which one lacks a callback (k = 1) and one callback raises with
message "boom"; the full result code sequence shows exactly one
`NotImplemented` and exactly one `UnknownException`, with the sibling
item still succeeding. -/
theorem backward_callback_partial_failure_witness :
    ((backward_callback sampleEnv sampleInputs sampleGrads sampleSynapses
        0).1.2.1.length = 3) ∧
    ((backward_callback sampleEnv sampleInputs sampleGrads sampleSynapses
        0).1.2.1.count ReturnCode.NotImplemented = 1) ∧
    ((backward_callback sampleEnv sampleInputs sampleGrads sampleSynapses
        0).1.2.1[1]? = some ReturnCode.UnknownException) ∧
    ((backward_callback sampleEnv sampleInputs sampleGrads sampleSynapses
        0).1.2.2[1]? = some "boom") ∧
    ((backward_callback sampleEnv sampleInputs sampleGrads sampleSynapses
        0).1.2.1 = [ReturnCode.Success, ReturnCode.UnknownException,
          ReturnCode.NotImplemented]) := by
  have h := backward_callback_partial_failure sampleEnv sampleInputs
    sampleGrads sampleSynapses 0 rfl
  have hthrow := h.2.2.2 1 { synapse_type := SynapseType.TEXT_CAUSAL_LM }
    throwCallback { shape := [4, 3], data := [] } "boom" rfl rfl rfl rfl
  refine ⟨?_, ?_, hthrow.1, hthrow.2, ?_⟩
  · simpa [sampleSynapses] using h.1
  · rw [h.2.1]; rfl
  · rfl

/-! Claim C1. -/

/-- C1 (code defect): on the fixture batch a successful item raises the
shared counter from 7 by its sample count 2 to 9, as the claim states;
but the subsequent update step of run.py lines 311-329 only assigns the
distinct attribute `model.backward_gradients` (line 323) and leaves
`model.backward_gradients_count` at 9, so the GradientCounter is not zero
immediately after the optimizer step. -/
theorem gradient_counter_not_reset_after_step :
    ((backward_callback sampleEnv
        [{ shape := [2, 3], data := [] }] [{ shape := [2], data := [1, 1] }]
        [{ synapse_type := SynapseType.TEXT_LAST_HIDDEN_STATE }] 7).2 = 9) ∧
    (maybeUpdate { local_train := true, remote_train := true } 1 (some 4)
        { lr := 1 / 10, backward_gradients_count := 9,
          backward_gradients := none, stepped := false, local_loss := none,
          best_loss := 100, saved := false } =
      Except.ok
        { lr := 1 / 90, backward_gradients_count := 9,
          backward_gradients := some 0, stepped := true,
          local_loss := some 4, best_loss := 4, saved := true }) ∧
    ((maybeUpdate { local_train := true, remote_train := true } 1 (some 4)
        { lr := 1 / 10, backward_gradients_count := 9,
          backward_gradients := none, stepped := false, local_loss := none,
          best_loss := 100, saved := false }).toOption.map
      UpdateState.backward_gradients_count ≠ some 0) := by
  have h2 : maybeUpdate { local_train := true, remote_train := true } 1
      (some 4)
      { lr := 1 / 10, backward_gradients_count := 9,
        backward_gradients := none, stepped := false, local_loss := none,
        best_loss := 100, saved := false } =
      Except.ok
        { lr := 1 / 90, backward_gradients_count := 9,
          backward_gradients := some 0, stepped := true,
          local_loss := some 4, best_loss := 4, saved := true } := by
    simp [maybeUpdate]
    norm_num
  refine ⟨rfl, h2, ?_⟩
  rw [h2]
  intro hcon
  simp [Except.toOption] at hcon

/-! Claim C2. -/

/-- C2 (code defect): the `with` statement opening the dispatcher's
critical section (run.py line 218) enters only the value of its `and`
chain, which is the last operand `torch.autograd.set_detect_anomaly(True)`
— the mutex is never acquired; and the scheduler's parameter-update
section contains no lock acquisition at all, so the claimed mutual
exclusion does not hold in the code. -/
theorem mutex_not_acquired :
    enteredContexts dispatcherWithExpr = [detectAnomalyObj] ∧
    mutexObj ∉ enteredContexts dispatcherWithExpr ∧
    schedulerUpdateLocks = [] := by
  refine ⟨rfl, ?_, rfl⟩
  intro hmem
  simp only [enteredContexts, dispatcherWithExpr, pyAnd, mutexObj,
    enableGradObj, detectAnomalyObj, List.mem_singleton] at hmem
  simp at hmem

/-! Claim C3. -/

/-- C3 (code defect): an epoch ending with zero local iterations, remote
training enabled and a nonzero gradient counter enters the update branch,
sets the adaptive learning rate `0.1 / gradient_count` and runs the
optimizer step, but then raises at
`local_data = ... losses.detach().item() / iteration` (run.py line 325) —
`NameError` when `losses` was never bound, `ZeroDivisionError` when a
stale `losses` survives from an earlier epoch — instead of proceeding to
the report phase. -/
theorem update_raises_with_zero_iterations :
    (maybeUpdate { local_train := false, remote_train := true } 0 none
        { lr := 1 / 10, backward_gradients_count := 3,
          backward_gradients := none, stepped := false, local_loss := none,
          best_loss := 100, saved := false } =
      Except.error (PyError.nameError "losses",
        { lr := 1 / 30, backward_gradients_count := 3,
          backward_gradients := some 0, stepped := true, local_loss := none,
          best_loss := 100, saved := false })) ∧
    (maybeUpdate { local_train := false, remote_train := true } 0 (some 4)
        { lr := 1 / 10, backward_gradients_count := 3,
          backward_gradients := none, stepped := false, local_loss := none,
          best_loss := 100, saved := false } =
      Except.error (PyError.zeroDivisionError,
        { lr := 1 / 30, backward_gradients_count := 3,
          backward_gradients := some 0, stepped := true, local_loss := none,
          best_loss := 100, saved := false })) := by
  constructor
  · simp [maybeUpdate]
    norm_num
  · simp [maybeUpdate]
    norm_num

/-! Claim C4. -/

/-- C4 counterexample: with `blocks_per_epoch = 0` the epoch's end block
is `10 + 0` for start block 10, yet the loop guard
`end_block >= current_block` holds at entry, so when the chain clock
reports block 11 the loop consumes one training batch — not zero as the
claim states. -/
theorem epoch_zero_blocks_counterexample :
    localTrainLoop (10 + 0) 10 [11, 11] 0 = 1 ∧
    ¬ (localTrainLoop (10 + 0) 10 [11, 11] 0 = 0) := by
  constructor
  · rfl
  · intro h
    simp [localTrainLoop] at h

/-- The iteration counter of the training loop never decreases below its
starting value. -/
theorem localTrainLoop_le (e : Nat) :
    ∀ (blocks : List Nat) (cb it : Nat), it ≤ localTrainLoop e cb blocks it := by
  have key : ∀ (n : Nat) (blocks : List Nat), blocks.length ≤ n →
      ∀ (cb it : Nat), it ≤ localTrainLoop e cb blocks it := by
    intro n
    induction n with
    | zero =>
      intro blocks hb cb it
      obtain rfl : blocks = [] := List.length_eq_zero.mp (Nat.le_zero.mp hb)
      rw [localTrainLoop.eq_def]
      dsimp only
      split
      · exact Nat.le_refl it
      · exact Nat.le_refl it
    | succ n ih =>
      intro blocks hb cb it
      rw [localTrainLoop.eq_def]
      dsimp only
      split
      · cases blocks with
        | nil => exact Nat.le_refl it
        | cons b rest =>
          simp only [List.length_cons] at hb
          dsimp only
          by_cases hcb : cb ≠ b
          · rw [if_pos hcb]
            cases rest with
            | nil => exact Nat.le_succ it
            | cons b2 rest2 =>
              refine Nat.le_trans (Nat.le_succ it) ?_
              exact ih rest2 (by simp at hb; omega) b2 (it + 1)
          · rw [if_neg hcb]
            exact ih rest (by omega) cb it
      · exact Nat.le_refl it
  intro blocks cb it
  exact key blocks.length blocks (Nat.le_refl _) cb it

/-- C4 amended: with `blocks_per_epoch = 0` the training window is the
closed block range enforced by the guard `end_block >= current_block`
(run.py line 291), so the loop does not skip to the update phase: as soon
as the observed chain block differs from the start block it consumes at
least one training batch. -/
theorem epoch_zero_blocks_consumes_batch (c b : Nat) (blocks : List Nat)
    (it : Nat) (h : b ≠ c) :
    it + 1 ≤ localTrainLoop (c + 0) c (b :: blocks) it := by
  rw [localTrainLoop.eq_def]
  dsimp only
  rw [if_pos (by omega : c + 0 ≥ c)]
  have hne : c ≠ b := fun hh => h hh.symm
  rw [if_pos hne]
  cases blocks with
  | nil => exact Nat.le_refl (it + 1)
  | cons b2 rest2 => exact localTrainLoop_le (c + 0) rest2 b2 (it + 1)

/-- Witness for the amended epoch claim: start block 10, zero blocks per
epoch, the chain advances to block 11 and one batch is consumed. -/
theorem epoch_zero_blocks_consumes_batch_witness :
    0 + 1 ≤ localTrainLoop (10 + 0) 10 [11] 0 :=
  epoch_zero_blocks_consumes_batch 10 11 [] 0 (by decide)

/-! Claim C5. -/

/-- C5 (code defect): `to_forward_request_proto` reads the attribute
`_text_prompt_serializer_type` (call.py line 140), which `__init__` never
sets (it sets `text_prompt_serializer_type`, line 97), so every
invocation raises `AttributeError` instead of returning the filled wire
request. -/
theorem to_forward_request_always_raises
    (serialize : SerializerType → Tensor → SerializedTensor)
    (c : TextSeq2SeqForwardCall) :
    to_forward_request_proto serialize c =
      Except.error (PyError.attributeError "_text_prompt_serializer_type") := by
  unfold to_forward_request_proto
  rw [if_neg (by decide)]

/-! Claim C7. -/

/-- Updating the timestamp dict always makes the written pubkey map to the
new time. -/
theorem lookup_updateAssoc (m : List (String × Int)) (k : String) (v : Int) :
    (updateAssoc m k v).lookup k = some v := by
  induction m with
  | nil => simp [updateAssoc, List.lookup]
  | cons hd rest ih =>
    obtain ⟨k', v'⟩ := hd
    by_cases h : k' = k
    · subst h
      simp [updateAssoc, List.lookup]
    · simp only [updateAssoc, if_neg h, List.lookup]
      have : (k == k') = false := by
        simp [beq_iff_eq]
        exact fun hh => h hh.symm
      rw [this]
      exact ih

/-- C7: the rate-limit check overwrites the stored timestamp with the
current time on every invocation regardless of outcome; a first-ever
pubkey is accepted; an arrival at or after `blacklist_time` seconds since
the previous record is accepted; an arrival strictly inside the window is
rejected (while still refreshing the timestamp). -/
theorem time_check_spec (T : Int) (tc : List (String × Int)) (pk : String)
    (t : Int) :
    ((time_check T tc pk t).2.lookup pk = some t) ∧
    (tc.lookup pk = none → (time_check T tc pk t).1 = CheckOutcome.accepted) ∧
    (∀ prev : Int, tc.lookup pk = some prev →
      (T ≤ t - prev → (time_check T tc pk t).1 = CheckOutcome.accepted) ∧
      (t - prev < T → (time_check T tc pk t).1 = CheckOutcome.rejected)) := by
  refine ⟨?_, ?_, ?_⟩
  · cases hl : tc.lookup pk with
    | none =>
      simp only [time_check, hl]
      exact lookup_updateAssoc tc pk t
    | some prev =>
      by_cases hw : t - prev ≥ T
      · simp only [time_check, hl, if_pos hw]
        exact lookup_updateAssoc tc pk t
      · simp only [time_check, hl, if_neg hw]
        exact lookup_updateAssoc tc pk t
  · intro h
    simp [time_check, h]
  · intro prev h
    constructor
    · intro hT
      simp [time_check, h, show t - prev ≥ T by omega]
    · intro hT
      have hw : ¬ t - prev ≥ T := by omega
      simp [time_check, h, hw]

/-- Witness for the rate-limit theorem at concrete times and window 10:
a first request at time 100 is accepted; a request at 110 (the boundary)
is accepted; a request at 105 is rejected yet refreshes the stored
timestamp to 105. -/
theorem time_check_spec_witness :
    ((time_check 10 [] "alice" 100).1 = CheckOutcome.accepted) ∧
    ((time_check 10 [("alice", 100)] "alice" 110).1 =
        CheckOutcome.accepted) ∧
    ((time_check 10 [("alice", 100)] "alice" 105).1 =
        CheckOutcome.rejected) ∧
    ((time_check 10 [("alice", 100)] "alice" 105).2.lookup "alice" =
        some 105) := by
  refine ⟨?_, ?_, ?_, ?_⟩
  · exact (time_check_spec 10 [] "alice" 100).2.1 rfl
  · exact ((time_check_spec 10 [("alice", 100)] "alice" 110).2.2 100
      rfl).1 (by decide)
  · exact ((time_check_spec 10 [("alice", 100)] "alice" 105).2.2 100
      rfl).2 (by decide)
  · exact (time_check_spec 10 [("alice", 100)] "alice" 105).1

/-! Claim C8. -/

/-- C8: the admission controller never rejects: the `try` body of
`blacklist` returns `False` unconditionally (every sub-check call is
commented out), so every pubkey and every request kind passes. -/
theorem blacklist_never_rejects (pubkey : String)
    (request_type : RequestType) :
    blacklist pubkey request_type = false := rfl

/-! Claim C9. -/

/-- C9: response deserialization checks the return code first: any
non-success code yields the remote-failure error carrying the
server-supplied message, identically for every deserializer — no payload
deserialization is attempted; a success code deserializes the payload
into the `generations` slot. -/
theorem from_forward_response_spec
    (deserialize : SerializerType → SerializedTensor → Tensor)
    (c : TextSeq2SeqForwardCall) (resp : ForwardTextSeq2SeqResponse) :
    (resp.return_code ≠ ReturnCode.Success →
      from_forward_response_proto deserialize c resp =
        Except.error ("Remote Server Failure: " ++ resp.message)) ∧
    (resp.return_code = ReturnCode.Success →
      from_forward_response_proto deserialize c resp =
        Except.ok
          { c with
            generations := some (deserialize c.generations_serializer_type
              resp.serialized_generations) }) := by
  constructor
  · intro h
    unfold from_forward_response_proto
    rw [if_pos h]
  · intro h
    unfold from_forward_response_proto
    rw [if_neg (by simp [h])]

/-- Witness for the response-deserialization theorem: a failed envelope
with message "bad" produces the remote-failure error, and a success
envelope fills the output slot through the fixture deserializer. -/
theorem from_forward_response_spec_witness :
    (from_forward_response_proto sampleDeserialize sampleCall
        { serialized_generations := [7, 7],
          return_code := ReturnCode.UnknownException, message := "bad" } =
      Except.error ("Remote Server Failure: " ++ "bad")) ∧
    (from_forward_response_proto sampleDeserialize sampleCall
        { serialized_generations := [7, 7],
          return_code := ReturnCode.Success, message := "" } =
      Except.ok
        { sampleCall with
          generations := some (sampleDeserialize
            sampleCall.generations_serializer_type [7, 7]) }) := by
  constructor
  · exact (from_forward_response_spec sampleDeserialize sampleCall
      { serialized_generations := [7, 7],
        return_code := ReturnCode.UnknownException, message := "bad" }).1
      (by decide)
  · exact (from_forward_response_spec sampleDeserialize sampleCall
      { serialized_generations := [7, 7],
        return_code := ReturnCode.Success, message := "" }).2 rfl

end Exodus
